import Mathlib

/-!
Shallow embedding of the climate analysis pipeline in `main.py`
(repository climate_graz).

The script loads a daily temperature table with a datetime index and three
temperature columns (`tl_mittel`, `tlmin`, `tlmax`) and runs three phases:

* Phase 1: restrict to the 1991-01-01 .. 2020-12-31 window, compute yearly
  means, a monthly climatology, monthly means, anomalies
  (`anom = monthly_means - clim`, aligned on the `month` level), the mean
  anomaly per year, and the five years with the largest mean anomaly
  (`nlargest(5)`).
* Phase 2: concatenate the rows of 2002 with the rows dated 2023-01-01 or
  later, group by calendar month, and aggregate median and the 25/75/10/90
  percent quantiles of each temperature column (pandas default linear
  interpolation); the aggregate columns are then relabelled
  `median`, `p25`, `p75`, `p10`, `p90` positionally.
* Phase 3: group the whole table by year and count rows with
  `tlmax >= 30` (hot days) and rows with `tlmin >= 20` (tropical nights);
  the two aggregate columns are relabelled `hot_days`, `tropical_nights`.

The table is modelled as a list of rows, each holding a calendar date and
three rational values.  A pandas datetime slice on a monotone index selects
exactly the rows whose date lies in the given closed interval, which is the
`List.filter` below.  Aggregation of a group is the arithmetic mean
(`sum / length`); an aggregate is `none` where pandas would have no entry
for the key.  Group keys are the distinct key values of the rows, sorted
ascending as pandas `groupby` sorts them.
-/

namespace ClimateGraz

/-- Calendar date of a row of the CSV (the `time` column). -/
structure Date where
  year : Nat
  month : Nat
  day : Nat
deriving DecidableEq

/-- Lexicographic order on dates, as a Boolean: the order of the datetime
index used by the pandas slices. -/
def Date.leb (a b : Date) : Bool :=
  decide (a.year < b.year) ||
    (decide (a.year = b.year) &&
      (decide (a.month < b.month) ||
        (decide (a.month = b.month) && decide (a.day ≤ b.day))))

/-- The three temperature columns of the CSV. -/
inductive Col where
  | tl_mittel
  | tlmin
  | tlmax
deriving DecidableEq

/-- One daily row of the table: date index and the three temperature
columns. -/
structure Row where
  date : Date
  tl_mittel : ℚ
  tlmin : ℚ
  tlmax : ℚ
deriving DecidableEq

/-- Value of a row in a given column. -/
def Row.get (r : Row) : Col → ℚ
  | Col.tl_mittel => r.tl_mittel
  | Col.tlmin => r.tlmin
  | Col.tlmax => r.tlmax

/-- The in-memory table: the list of daily rows. -/
abbrev Table := List Row

/-- Datetime slice `df[lo:hi]` (closed interval, as in pandas). -/
def dateSlice (lo hi : Date) (t : Table) : Table :=
  t.filter (fun r => Date.leb lo r.date && Date.leb r.date hi)

/-- Datetime slice `df[lo:]` (everything from `lo` on). -/
def dateFrom (lo : Date) (t : Table) : Table :=
  t.filter (fun r => Date.leb lo r.date)

/-- Arithmetic mean of a list of values; `none` on the empty list (pandas
has no entry for a key with no rows). -/
def mean? (l : List ℚ) : Option ℚ :=
  if l = [] then none else some (l.sum / (l.length : ℚ))

/-- Distinct values of a list of keys, sorted ascending (pandas `groupby`
sorts its keys). -/
def natKeys (l : List Nat) : List Nat :=
  List.insertionSort (· ≤ ·) l.dedup

/-- Lexicographic order on `(year, month)` group keys. -/
def pairLe (a b : Nat × Nat) : Prop :=
  a.1 < b.1 ∨ (a.1 = b.1 ∧ a.2 ≤ b.2)

instance : DecidableRel pairLe := fun a b => by
  unfold pairLe
  exact inferInstance

/-- Distinct `(year, month)` keys, sorted ascending. -/
def pairKeys (l : List (Nat × Nat)) : List (Nat × Nat) :=
  List.insertionSort pairLe l.dedup

/-! ## Phase 1: climatology and anomalies (`main.py` lines 22-43) -/

/-- Line 23: `df_date_restricted = df["1991-01-01":"2020-12-31"]`. -/
def df_date_restricted (df : Table) : Table :=
  dateSlice ⟨1991, 1, 1⟩ ⟨2020, 12, 31⟩ df

/-- Index of line 24's
`yearly_means = df_date_restricted.groupby(df_date_restricted.index.year).mean().dropna()`:
the distinct years of the restricted rows.  In this model a group mean of a
non-empty group always exists, so `.dropna()` removes nothing. -/
def yearlyMeansKeys (df : Table) : List Nat :=
  natKeys ((df_date_restricted df).map (fun r => r.date.year))

/-- Line 24: yearly mean of a column, at a year key. -/
def yearly_means (df : Table) (y : Nat) (c : Col) : Option ℚ :=
  mean? (((df_date_restricted df).filter (fun r => r.date.year == y)).map
    (fun r => Row.get r c))

/-- Line 27: `df_clim = df_date_restricted["1991-01":"2020-12"]` (the partial
string slice denotes the same closed interval 1991-01-01 .. 2020-12-31). -/
def df_clim (df : Table) : Table :=
  dateSlice ⟨1991, 1, 1⟩ ⟨2020, 12, 31⟩ (df_date_restricted df)

/-- Index of line 28's `clim = df_clim.groupby(df_clim.index.month).mean()`. -/
def climKeys (df : Table) : List Nat :=
  natKeys ((df_clim df).map (fun r => r.date.month))

/-- Line 28: the monthly climatology, at a month key. -/
def clim (df : Table) (m : Nat) (c : Col) : Option ℚ :=
  mean? (((df_clim df).filter (fun r => r.date.month == m)).map
    (fun r => Row.get r c))

/-- Index of line 32's
`monthly_means = df_date_restricted.groupby([year, month]).mean()`. -/
def monthlyKeys (df : Table) : List (Nat × Nat) :=
  pairKeys ((df_date_restricted df).map (fun r => (r.date.year, r.date.month)))

/-- Line 32: the monthly mean, at a `(year, month)` key. -/
def monthly_means (df : Table) (y m : Nat) (c : Col) : Option ℚ :=
  mean? (((df_date_restricted df).filter
    (fun r => r.date.year == y && r.date.month == m)).map (fun r => Row.get r c))

/-- Line 35: `anom = monthly_means - clim`.  The subtraction aligns the
`(year, month)` index of `monthly_means` with the `month` index of `clim`
on the `month` level; an entry is missing (`NaN`) when either operand is
missing. -/
def anom (df : Table) (y m : Nat) (c : Col) : Option ℚ :=
  match monthly_means df y m c, clim df m c with
  | some a, some b => some (a - b)
  | _, _ => none

/-- Index of line 40's
`mean_anom_per_year = series.groupby(level="year").mean()`: the distinct
years of the `(year, month)` index of `series = anom["tl_mittel"]`. -/
def seriesYearKeys (df : Table) : List Nat :=
  natKeys ((monthlyKeys df).map Prod.fst)

/-- Line 40: mean over the months of a year of the `tl_mittel` anomaly
series (pandas mean skips missing entries). -/
def mean_anom_per_year (df : Table) (y : Nat) : Option ℚ :=
  mean? (((monthlyKeys df).filter (fun km => km.1 == y)).filterMap
    (fun km => anom df km.1 km.2 Col.tl_mittel))

/-- Descending order on the value component of `(year, mean anomaly)`
pairs, used by `nlargest`. -/
def geSnd (a b : Nat × ℚ) : Prop := b.2 ≤ a.2

instance : DecidableRel geSnd := fun a b => by
  unfold geSnd
  exact inferInstance

instance : IsTotal (Nat × ℚ) geSnd :=
  ⟨fun a b => le_total b.2 a.2⟩

instance : IsTrans (Nat × ℚ) geSnd :=
  ⟨fun _ _ _ hab hbc => le_trans hbc hab⟩

/-- The `(year, value)` pairs of the series `mean_anom_per_year` (years
with a missing mean would be dropped by `nlargest`). -/
def anomPairs (df : Table) : List (Nat × ℚ) :=
  (seriesYearKeys df).filterMap
    (fun y => (mean_anom_per_year df y).map (fun v => (y, v)))

/-- The `(year, value)` pairs of `mean_anom_per_year`, sorted by value
descending, as `nlargest` orders them. -/
def hottestPairs (df : Table) : List (Nat × ℚ) :=
  List.insertionSort geSnd (anomPairs df)

/-- Line 43: `hottest_years = mean_anom_per_year.nlargest(5).index`. -/
def hottest_years (df : Table) : List Nat :=
  ((hottestPairs df).take 5).map Prod.fst

/-! ## Phase 2: monthly order statistics (`main.py` lines 71-91) -/

/-- Line 73:
`df_custom_years = pd.concat([df["2002-01-01":"2002-12-31"], df["2023-01-01":]])`. -/
def df_custom_years (df : Table) : Table :=
  dateSlice ⟨2002, 1, 1⟩ ⟨2002, 12, 31⟩ df ++ dateFrom ⟨2023, 1, 1⟩ df

/-- Index of line 77's `monthly_stats` groupby: the distinct months of the
custom-year rows. -/
def customMonthKeys (df : Table) : List Nat :=
  natKeys ((df_custom_years df).map (fun r => r.date.month))

/-- The daily values of one column falling in month `m` of the custom year
set: the data each aggregate of line 77 runs on. -/
def customVals (df : Table) (m : Nat) (c : Col) : List ℚ :=
  ((df_custom_years df).filter (fun r => r.date.month == m)).map
    (fun r => Row.get r c)

/-- Values of a sample sorted ascending, as `quantile` sorts internally. -/
def sortQ (l : List ℚ) : List ℚ :=
  List.insertionSort (· ≤ ·) l

/-- Linear interpolation into a sorted sample at fractional position `x`:
with `i = ⌊x⌋`, the value `s[i] + (x - i) * (s[i+1] - s[i])`, reading
`s[i+1]` as `s[i]` when out of range. -/
def interpAt (s : List ℚ) (x : ℚ) : ℚ :=
  s.getD (⌊x⌋).toNat 0 +
    (x - (((⌊x⌋).toNat : ℕ) : ℚ)) *
      (s.getD ((⌊x⌋).toNat + 1) (s.getD (⌊x⌋).toNat 0) - s.getD (⌊x⌋).toNat 0)

/-- Linear-interpolation quantile of a sorted sample, pandas/numpy default
method: interpolate at position `p * (n - 1)`. -/
def interpQ (s : List ℚ) (p : ℚ) : ℚ :=
  interpAt s (p * ((s.length : ℚ) - 1))

/-- `Series.quantile(p)`: sort the sample and interpolate; no value on an
empty sample. -/
def quantile? (l : List ℚ) (p : ℚ) : Option ℚ :=
  if l = [] then none else some (interpQ (sortQ l) p)

/-- Median of a sorted sample, numpy rule: middle element for odd length,
average of the two middle elements for even length. -/
def npMedianSorted (s : List ℚ) : ℚ :=
  if s.length % 2 = 1 then s.getD (s.length / 2) 0
  else (s.getD (s.length / 2 - 1) 0 + s.getD (s.length / 2) 0) / 2

/-- `Series.median()`: no value on an empty sample. -/
def median? (l : List ℚ) : Option ℚ :=
  if l = [] then none else some (npMedianSorted (sortQ l))

/-- The relabelled statistic columns of `monthly_stats` (line 89). -/
inductive Stat where
  | median
  | p25
  | p75
  | p10
  | p90
deriving DecidableEq

/-- Position of each label in the relabelling list
`['median', 'p25', 'p75', 'p10', 'p90']` of lines 87-90. -/
def Stat.idx : Stat → Nat
  | Stat.median => 0
  | Stat.p25 => 1
  | Stat.p75 => 2
  | Stat.p10 => 3
  | Stat.p90 => 4

/-- Lines 77-84: the aggregate list
`['median', q(0.25), q(0.75), q(0.10), q(0.90)]` applied to one column of
one month group, in the order written in the `agg` call. -/
def monthlyStatsAgg (df : Table) (m : Nat) (c : Col) : List (Option ℚ) :=
  [median? (customVals df m c),
   quantile? (customVals df m c) (1/4),
   quantile? (customVals df m c) (3/4),
   quantile? (customVals df m c) (1/10),
   quantile? (customVals df m c) (9/10)]

/-- Lines 77-91: `monthly_stats`, looked up at month `m`, column `c` and
relabelled statistic `st` (the label is matched to the aggregate at the
same position). -/
def monthly_stats (df : Table) (m : Nat) (c : Col) (st : Stat) : Option ℚ :=
  (monthlyStatsAgg df m c).getD st.idx none

/-! ## Phase 3: hot days and tropical nights (`main.py` lines 144-152) -/

/-- Index of line 146's `annual_stats` groupby: the distinct years of the
whole table. -/
def annualKeys (df : Table) : List Nat :=
  natKeys (df.map (fun r => r.date.year))

/-- The relabelled count columns of `annual_stats` (line 151). -/
inductive ACol where
  | hot_days
  | tropical_nights
deriving DecidableEq

/-- Position of each label in the relabelling list
`['hot_days', 'tropical_nights']` of lines 150-152. -/
def ACol.idx : ACol → Nat
  | ACol.hot_days => 0
  | ACol.tropical_nights => 1

/-- Lines 146-149: the aggregate list `[(tlmax >= 30).sum(), (tlmin >= 20).sum()]`
on one year group, in the order written in the `agg` call. -/
def annualStatsAgg (df : Table) (y : Nat) : List Nat :=
  [(df.filter (fun r => r.date.year == y)).countP (fun r => decide ((30 : ℚ) ≤ r.tlmax)),
   (df.filter (fun r => r.date.year == y)).countP (fun r => decide ((20 : ℚ) ≤ r.tlmin))]

/-- Lines 146-152: `annual_stats`, looked up at year `y` and relabelled
column `a`. -/
def annual_stats (df : Table) (y : Nat) (a : ACol) : Nat :=
  (annualStatsAgg df y).getD a.idx 0

/-! ## Spec-side definitions used to state the claims -/

/-- Validity of a calendar date, the invariant assumed of every `time`
value of the input. -/
abbrev ValidDate (d : Date) : Prop :=
  1 ≤ d.month ∧ d.month ≤ 12 ∧ 1 ≤ d.day ∧ d.day ≤ 31

/-- Rows of the input whose date lies in the 30-year window
1991-01-01 .. 2020-12-31 and whose month is `m`, as the spec words the
climatology. -/
def specClimRows (df : Table) (m : Nat) : Table :=
  df.filter (fun r =>
    Date.leb ⟨1991, 1, 1⟩ r.date && Date.leb r.date ⟨2020, 12, 31⟩ &&
      r.date.month == m)

/-- Climatology as the spec words it: the arithmetic mean of a column over
all daily rows in the 30-year window with month `m`. -/
def specClim (df : Table) (m : Nat) (c : Col) : Option ℚ :=
  mean? ((specClimRows df m).map (fun r => Row.get r c))

/-- Count of daily rows of year `y` whose column `c` strictly exceeds a
threshold: the claim's reading of a threshold-exceedance count. -/
def strictExceedCount (df : Table) (y : Nat) (c : Col) (thr : ℚ) : Nat :=
  (df.filter (fun r => r.date.year == y)).countP
    (fun r => decide (thr < Row.get r c))

/-! ## Helper lemmas -/

theorem mean?_exists {l : List ℚ} (h : l ≠ []) : ∃ q, mean? l = some q := by
  refine ⟨l.sum / (l.length : ℚ), ?_⟩
  simp [mean?, h]

theorem mean?_isSome {l : List ℚ} (h : l ≠ []) : (mean? l).isSome = true := by
  obtain ⟨q, hq⟩ := mean?_exists h
  simp [hq]

theorem mem_natKeys {a : Nat} {l : List Nat} : a ∈ natKeys l ↔ a ∈ l := by
  unfold natKeys
  rw [(List.perm_insertionSort _ _).mem_iff, List.mem_dedup]

theorem mem_pairKeys {a : Nat × Nat} {l : List (Nat × Nat)} :
    a ∈ pairKeys l ↔ a ∈ l := by
  unfold pairKeys
  rw [(List.perm_insertionSort _ _).mem_iff, List.mem_dedup]

theorem map_ne_nil_of_mem {α β : Type} {f : α → β} {l : List α} {x : α}
    (hx : x ∈ l) : l.map f ≠ [] := by
  intro h
  rw [List.map_eq_nil_iff] at h
  subst h
  exact absurd hx (List.not_mem_nil x)

theorem filter_map_ne_nil {α β : Type} {p : α → Bool} {l : List α} {x : α}
    {f : α → β} (hx : x ∈ l) (hp : p x = true) :
    (l.filter p).map f ≠ [] :=
  map_ne_nil_of_mem (List.mem_filter.2 ⟨hx, hp⟩)

theorem mem_climKeys {df : Table} {m : Nat} :
    m ∈ climKeys df ↔ ∃ r ∈ df_clim df, r.date.month = m := by
  unfold climKeys
  rw [mem_natKeys, List.mem_map]

theorem mem_monthlyKeys {df : Table} {y m : Nat} :
    (y, m) ∈ monthlyKeys df ↔
      ∃ r ∈ df_date_restricted df, r.date.year = y ∧ r.date.month = m := by
  unfold monthlyKeys
  rw [mem_pairKeys, List.mem_map]
  constructor
  · rintro ⟨r, hr, he⟩
    exact ⟨r, hr, congrArg Prod.fst he, congrArg Prod.snd he⟩
  · rintro ⟨r, hr, hy, hm⟩
    exact ⟨r, hr, by rw [hy, hm]⟩

theorem mem_seriesYearKeys {df : Table} {y : Nat} :
    y ∈ seriesYearKeys df ↔ ∃ m, (y, m) ∈ monthlyKeys df := by
  unfold seriesYearKeys
  rw [mem_natKeys, List.mem_map]
  constructor
  · rintro ⟨⟨y', m⟩, hk, he⟩
    have hy : y' = y := he
    subst hy
    exact ⟨m, hk⟩
  · rintro ⟨m, hk⟩
    exact ⟨(y, m), hk, rfl⟩

theorem mem_customMonthKeys {df : Table} {m : Nat} :
    m ∈ customMonthKeys df ↔ ∃ r ∈ df_custom_years df, r.date.month = m := by
  unfold customMonthKeys
  rw [mem_natKeys, List.mem_map]

theorem mem_annualKeys {df : Table} {y : Nat} :
    y ∈ annualKeys df ↔ ∃ r ∈ df, r.date.year = y := by
  unfold annualKeys
  rw [mem_natKeys, List.mem_map]

theorem mem_yearlyMeansKeys {df : Table} {y : Nat} :
    y ∈ yearlyMeansKeys df ↔ ∃ r ∈ df_date_restricted df, r.date.year = y := by
  unfold yearlyMeansKeys
  rw [mem_natKeys, List.mem_map]

theorem dateSlice_idem (lo hi : Date) (t : Table) :
    dateSlice lo hi (dateSlice lo hi t) = dateSlice lo hi t := by
  unfold dateSlice
  rw [List.filter_filter]
  apply List.filter_congr
  intro x _
  rw [Bool.and_self]

theorem df_clim_eq (df : Table) : df_clim df = df_date_restricted df :=
  dateSlice_idem _ _ _

theorem mem_df_clim_of_restricted {df : Table} {r : Row}
    (h : r ∈ df_date_restricted df) : r ∈ df_clim df := by
  rw [df_clim_eq]
  exact h

theorem clim_exists_of_mem {df : Table} {m : Nat} {r : Row}
    (hr : r ∈ df_clim df) (hm : r.date.month = m) (c : Col) :
    ∃ q, clim df m c = some q := by
  apply mean?_exists
  exact filter_map_ne_nil hr (by simp [hm])

theorem monthly_means_exists_of_mem {df : Table} {y m : Nat} {r : Row}
    (hr : r ∈ df_date_restricted df) (hy : r.date.year = y)
    (hm : r.date.month = m) (c : Col) :
    ∃ q, monthly_means df y m c = some q := by
  apply mean?_exists
  exact filter_map_ne_nil hr (by simp [hy, hm])

theorem anom_eq_sub_of_key {df : Table} {y m : Nat} (c : Col)
    (h : (y, m) ∈ monthlyKeys df) :
    ∃ a b, monthly_means df y m c = some a ∧ clim df m c = some b ∧
      anom df y m c = some (a - b) := by
  obtain ⟨r, hr, hy, hm⟩ := mem_monthlyKeys.1 h
  obtain ⟨a, ha⟩ := monthly_means_exists_of_mem hr hy hm c
  obtain ⟨b, hb⟩ := clim_exists_of_mem (mem_df_clim_of_restricted hr) hm c
  exact ⟨a, b, ha, hb, by rw [anom, ha, hb]⟩

theorem mean_anom_per_year_exists {df : Table} {y : Nat}
    (h : y ∈ seriesYearKeys df) : ∃ q, mean_anom_per_year df y = some q := by
  obtain ⟨m, hk⟩ := mem_seriesYearKeys.1 h
  obtain ⟨a, b, _, _, hab⟩ := anom_eq_sub_of_key Col.tl_mittel hk
  apply mean?_exists
  intro hnil
  have hmem : (a - b) ∈ ((monthlyKeys df).filter (fun km => km.1 == y)).filterMap
      (fun km => anom df km.1 km.2 Col.tl_mittel) := by
    rw [List.mem_filterMap]
    exact ⟨(y, m), List.mem_filter.2 ⟨hk, by simp⟩, hab⟩
  rw [hnil] at hmem
  exact absurd hmem (List.not_mem_nil _)

theorem customVals_ne_nil {df : Table} {m : Nat} (c : Col)
    (h : m ∈ customMonthKeys df) : customVals df m c ≠ [] := by
  obtain ⟨r, hr, hm⟩ := mem_customMonthKeys.1 h
  exact filter_map_ne_nil hr (by simp [hm])

theorem getD_default_eq {s : List ℚ} {n : Nat} (h : n < s.length) (d d' : ℚ) :
    s.getD n d = s.getD n d' := by
  rw [List.getD_eq_getElem _ _ h, List.getD_eq_getElem _ _ h]

theorem getD_mono_of_sorted {s : List ℚ} (hs : List.Sorted (· ≤ ·) s) {i j : Nat}
    (hij : i ≤ j) (hj : j < s.length) : s.getD i 0 ≤ s.getD j 0 := by
  have hi : i < s.length := lt_of_le_of_lt hij hj
  rw [List.getD_eq_getElem _ _ hi, List.getD_eq_getElem _ _ hj]
  have h := hs.rel_get_of_le (a := ⟨i, hi⟩) (b := ⟨j, hj⟩) hij
  simpa [List.get_eq_getElem] using h

theorem getD_le_getD_succ {s : List ℚ} (hs : List.Sorted (· ≤ ·) s) (i : Nat) :
    s.getD i 0 ≤ s.getD (i + 1) (s.getD i 0) := by
  by_cases hi1 : i + 1 < s.length
  · rw [getD_default_eq hi1 (s.getD i 0) 0]
    exact getD_mono_of_sorted hs (Nat.le_succ i) hi1
  · rw [List.getD_eq_default _ _ (Nat.le_of_not_lt hi1)]

theorem toNat_floor_cast {x : ℚ} (hx : 0 ≤ x) :
    (((⌊x⌋).toNat : ℕ) : ℚ) = ((⌊x⌋ : ℤ) : ℚ) := by
  have h := Int.toNat_of_nonneg (Int.floor_nonneg.2 hx)
  exact_mod_cast congrArg (fun z : ℤ => (z : ℚ)) h

theorem toNat_floor_le_self {x : ℚ} (hx : 0 ≤ x) :
    (((⌊x⌋).toNat : ℕ) : ℚ) ≤ x := by
  rw [toNat_floor_cast hx]
  exact Int.floor_le x

theorem lt_toNat_floor_add_one {x : ℚ} (hx : 0 ≤ x) :
    x < (((⌊x⌋).toNat : ℕ) : ℚ) + 1 := by
  rw [toNat_floor_cast hx]
  exact Int.lt_floor_add_one x

theorem toNat_floor_lt_length {x : ℚ} {n : Nat} (hn : 0 < n)
    (h : x ≤ (n : ℚ) - 1) : (⌊x⌋).toNat < n := by
  have hcast : ((n : ℚ) - 1) = (((n : ℤ) - 1 : ℤ) : ℚ) := by push_cast; ring
  have h2 : ⌊x⌋ ≤ (n : ℤ) - 1 := by
    calc ⌊x⌋ ≤ ⌊(n : ℚ) - 1⌋ := Int.floor_le_floor h
      _ = (n : ℤ) - 1 := by rw [hcast, Int.floor_intCast]
  omega

theorem interpAt_ge {s : List ℚ} (hs : List.Sorted (· ≤ ·) s) {x : ℚ}
    (hx : 0 ≤ x) : s.getD (⌊x⌋).toNat 0 ≤ interpAt s x := by
  unfold interpAt
  have h1 := toNat_floor_le_self hx
  have h2 := getD_le_getD_succ hs (⌊x⌋).toNat
  nlinarith [h1, h2]

theorem interpAt_le {s : List ℚ} (hs : List.Sorted (· ≤ ·) s) {x : ℚ}
    (hx : 0 ≤ x) :
    interpAt s x ≤ s.getD ((⌊x⌋).toNat + 1) (s.getD (⌊x⌋).toNat 0) := by
  unfold interpAt
  have h1 := lt_toNat_floor_add_one hx
  have h2 := getD_le_getD_succ hs (⌊x⌋).toNat
  nlinarith [h1, h2]

theorem interpAt_mono {s : List ℚ} (hs : List.Sorted (· ≤ ·) s) (hne : s ≠ [])
    {x y : ℚ} (hx : 0 ≤ x) (hxy : x ≤ y) (hy : y ≤ (s.length : ℚ) - 1) :
    interpAt s x ≤ interpAt s y := by
  have hy0 : 0 ≤ y := le_trans hx hxy
  have hn : 0 < s.length := List.length_pos.2 hne
  have hij : (⌊x⌋).toNat ≤ (⌊y⌋).toNat := by
    have h := Int.floor_le_floor hxy
    omega
  rcases Nat.eq_or_lt_of_le hij with heq | hlt
  · unfold interpAt
    rw [← heq]
    have h2 := getD_le_getD_succ hs (⌊x⌋).toNat
    nlinarith [h2, hxy]
  · have hjlt : (⌊y⌋).toNat < s.length := toNat_floor_lt_length hn hy
    have hi1lt : (⌊x⌋).toNat + 1 < s.length := by omega
    calc interpAt s x
        ≤ s.getD ((⌊x⌋).toNat + 1) (s.getD (⌊x⌋).toNat 0) := interpAt_le hs hx
      _ = s.getD ((⌊x⌋).toNat + 1) 0 := getD_default_eq hi1lt _ _
      _ ≤ s.getD (⌊y⌋).toNat 0 := getD_mono_of_sorted hs (by omega) hjlt
      _ ≤ interpAt s y := interpAt_ge hs hy0

theorem sortQ_sorted (l : List ℚ) : List.Sorted (· ≤ ·) (sortQ l) :=
  List.sorted_insertionSort _ _

theorem sortQ_length (l : List ℚ) : (sortQ l).length = l.length :=
  (List.perm_insertionSort _ _).length_eq

theorem sortQ_ne_nil {l : List ℚ} (h : l ≠ []) : sortQ l ≠ [] := by
  intro hnil
  apply h
  have hlen := sortQ_length l
  rw [hnil] at hlen
  exact List.length_eq_zero.1 hlen.symm

theorem interpQ_mono {s : List ℚ} (hs : List.Sorted (· ≤ ·) s) (hne : s ≠ [])
    {p q : ℚ} (hp : 0 ≤ p) (hpq : p ≤ q) (hq : q ≤ 1) :
    interpQ s p ≤ interpQ s q := by
  unfold interpQ
  have hn : 0 < s.length := List.length_pos.2 hne
  have hn1 : (0 : ℚ) ≤ (s.length : ℚ) - 1 := by
    have h1 : (1 : ℚ) ≤ (s.length : ℚ) := by exact_mod_cast hn
    linarith
  apply interpAt_mono hs hne
  · exact mul_nonneg hp hn1
  · exact mul_le_mul_of_nonneg_right hpq hn1
  · calc q * ((s.length : ℚ) - 1)
        ≤ 1 * ((s.length : ℚ) - 1) := mul_le_mul_of_nonneg_right hq hn1
      _ = (s.length : ℚ) - 1 := one_mul _

theorem npMedianSorted_eq_interpQ {s : List ℚ} (hne : s ≠ []) :
    npMedianSorted s = interpQ s (1/2) := by
  have hn : 0 < s.length := List.length_pos.2 hne
  rcases Nat.mod_two_eq_zero_or_one s.length with h2 | h2
  · obtain ⟨k, hk⟩ : ∃ k, s.length = 2 * k := ⟨s.length / 2, by omega⟩
    have hk1 : 1 ≤ k := by omega
    have hd2 : s.length / 2 = k := by omega
    have hneq : ¬ s.length % 2 = 1 := by omega
    have hx : (1/2 : ℚ) * ((s.length : ℚ) - 1) = (k : ℚ) - 1/2 := by
      rw [hk]
      push_cast
      ring
    have hfl : ⌊(k : ℚ) - 1/2⌋ = (k : ℤ) - 1 := by
      rw [Int.floor_eq_iff]
      constructor
      · push_cast
        linarith
      · push_cast
        linarith
    have htn : ((k : ℤ) - 1).toNat = k - 1 := by omega
    unfold npMedianSorted interpQ interpAt
    rw [if_neg hneq, hx, hfl, htn, hd2]
    have hsucc : k - 1 + 1 = k := by omega
    rw [hsucc]
    have hc1 : ((k - 1 : ℕ) : ℚ) = (k : ℚ) - 1 := by
      push_cast [hk1]
      ring
    rw [hc1]
    have hklt : k < s.length := by omega
    rw [getD_default_eq hklt (s.getD (k - 1) 0) 0]
    ring
  · obtain ⟨k, hk⟩ : ∃ k, s.length = 2 * k + 1 := ⟨s.length / 2, by omega⟩
    have hd2 : s.length / 2 = k := by omega
    have hx : (1/2 : ℚ) * ((s.length : ℚ) - 1) = ((k : ℕ) : ℚ) := by
      rw [hk]
      push_cast
      ring
    unfold npMedianSorted interpQ interpAt
    rw [if_pos h2, hx, hd2, Int.floor_natCast]
    simp

theorem median?_eq_quantile_half (l : List ℚ) :
    median? l = quantile? l (1/2) := by
  by_cases h : l = []
  · simp [median?, quantile?, h]
  · simp [median?, quantile?, h, npMedianSorted_eq_interpQ (sortQ_ne_nil h)]

theorem quantile?_exists {l : List ℚ} (h : l ≠ []) (p : ℚ) :
    ∃ q, quantile? l p = some q := by
  refine ⟨interpQ (sortQ l) p, ?_⟩
  simp [quantile?, h]

theorem median?_exists {l : List ℚ} (h : l ≠ []) :
    ∃ q, median? l = some q := by
  refine ⟨npMedianSorted (sortQ l), ?_⟩
  simp [median?, h]

theorem natKeys_nodup (l : List Nat) : (natKeys l).Nodup :=
  ((List.perm_insertionSort _ _).nodup_iff).2 (List.nodup_dedup l)

theorem fst_filterMap_pairs (l : List Nat) (g : Nat → Option ℚ) :
    ((l.filterMap (fun y => (g y).map (fun v => (y, v)))).map Prod.fst)
      = l.filter (fun y => (g y).isSome) := by
  induction l with
  | nil => rfl
  | cons a t ih =>
    cases hg : g a with
    | none => simp [List.filterMap_cons, hg, List.filter_cons, ih]
    | some v => simp [List.filterMap_cons, hg, List.filter_cons, ih]

theorem fst_anomPairs (df : Table) :
    (anomPairs df).map Prod.fst
      = (seriesYearKeys df).filter (fun y => (mean_anom_per_year df y).isSome) :=
  fst_filterMap_pairs _ _

theorem mem_anomPairs {df : Table} {y : Nat} {v : ℚ} :
    (y, v) ∈ anomPairs df ↔
      y ∈ seriesYearKeys df ∧ mean_anom_per_year df y = some v := by
  unfold anomPairs
  rw [List.mem_filterMap]
  constructor
  · rintro ⟨a, ha, he⟩
    cases hg : mean_anom_per_year df a with
    | none => rw [hg] at he; exact absurd he (by simp)
    | some w =>
        rw [hg] at he
        simp only [Option.map_some', Option.some_inj, Prod.mk.injEq] at he
        obtain ⟨h1, h2⟩ := he
        subst h1
        subst h2
        exact ⟨ha, hg⟩
  · rintro ⟨hy, hv⟩
    exact ⟨y, hy, by rw [hv]; rfl⟩

theorem anomPairs_length (df : Table) :
    (anomPairs df).length = (seriesYearKeys df).length := by
  have hall : ∀ y ∈ seriesYearKeys df, (mean_anom_per_year df y).isSome = true := by
    intro y hy
    obtain ⟨q, hq⟩ := mean_anom_per_year_exists hy
    simp [hq]
  have h1 := fst_anomPairs df
  have h2 : (seriesYearKeys df).filter (fun y => (mean_anom_per_year df y).isSome)
      = seriesYearKeys df := List.filter_eq_self.2 hall
  calc (anomPairs df).length = ((anomPairs df).map Prod.fst).length :=
        (List.length_map _ _).symm
    _ = (seriesYearKeys df).length := by rw [h1, h2]

theorem fst_anomPairs_nodup (df : Table) :
    ((anomPairs df).map Prod.fst).Nodup := by
  rw [fst_anomPairs]
  exact (natKeys_nodup _).filter _

theorem hottestPairs_perm (df : Table) :
    (hottestPairs df).Perm (anomPairs df) :=
  List.perm_insertionSort _ _

theorem hottestPairs_sorted (df : Table) :
    List.Sorted geSnd (hottestPairs df) :=
  List.sorted_insertionSort _ _

theorem hottestPairs_take_drop (df : Table) {pr pr' : Nat × ℚ}
    (h : pr ∈ (hottestPairs df).take 5) (h' : pr' ∈ (hottestPairs df).drop 5) :
    pr'.2 ≤ pr.2 := by
  have hsorted := hottestPairs_sorted df
  rw [← List.take_append_drop 5 (hottestPairs df)] at hsorted
  exact (List.pairwise_append.1 hsorted).2.2 pr h pr' h'

theorem mem_hottest_years {df : Table} {y : Nat} :
    y ∈ hottest_years df ↔ ∃ pr ∈ (hottestPairs df).take 5, pr.1 = y := by
  unfold hottest_years
  rw [List.mem_map]

theorem hottest_years_subset {df : Table} {y : Nat} (h : y ∈ hottest_years df) :
    y ∈ seriesYearKeys df := by
  obtain ⟨pr, hpr, hy⟩ := mem_hottest_years.1 h
  have h1 : pr ∈ hottestPairs df := (List.take_sublist 5 _).mem hpr
  have h2 : pr ∈ anomPairs df := (hottestPairs_perm df).mem_iff.1 h1
  obtain ⟨hk, _⟩ := mem_anomPairs.1 (by rw [show pr = (pr.1, pr.2) from rfl] at h2; exact h2)
  rw [← hy]
  exact hk

theorem hottest_mean_eq {df : Table} {y : Nat} (h : y ∈ hottest_years df) :
    ∃ pr ∈ (hottestPairs df).take 5, pr.1 = y ∧
      mean_anom_per_year df y = some pr.2 := by
  obtain ⟨pr, hpr, hy⟩ := mem_hottest_years.1 h
  have h1 : pr ∈ hottestPairs df := (List.take_sublist 5 _).mem hpr
  have h2 : pr ∈ anomPairs df := (hottestPairs_perm df).mem_iff.1 h1
  obtain ⟨_, hv⟩ := mem_anomPairs.1 (by rw [show pr = (pr.1, pr.2) from rfl] at h2; exact h2)
  subst hy
  exact ⟨pr, hpr, rfl, hv⟩

/-! ## Concrete tables used by the witnesses and the counterexample -/

/-- Small concrete input: five baseline years, a row in the 2002 and 2023
custom years, and a 2010 row. -/
def exTable : Table :=
  [⟨⟨1991, 1, 10⟩, 1, 0, 2⟩,
   ⟨⟨1992, 1, 10⟩, 2, 1, 3⟩,
   ⟨⟨1993, 1, 10⟩, 3, 2, 4⟩,
   ⟨⟨1994, 1, 10⟩, 4, 3, 5⟩,
   ⟨⟨1995, 1, 10⟩, 5, 4, 6⟩,
   ⟨⟨2002, 6, 15⟩, 20, 15, 25⟩,
   ⟨⟨2023, 6, 1⟩, 22, 16, 30⟩,
   ⟨⟨2010, 3, 3⟩, 7, 3, 12⟩]

/-- `exTable` with only the 2010 row changed: agrees with `exTable` on the
2002 rows and on the rows dated 2023-01-01 or later. -/
def exTableB : Table :=
  [⟨⟨1991, 1, 10⟩, 1, 0, 2⟩,
   ⟨⟨1992, 1, 10⟩, 2, 1, 3⟩,
   ⟨⟨1993, 1, 10⟩, 3, 2, 4⟩,
   ⟨⟨1994, 1, 10⟩, 4, 3, 5⟩,
   ⟨⟨1995, 1, 10⟩, 5, 4, 6⟩,
   ⟨⟨2002, 6, 15⟩, 20, 15, 25⟩,
   ⟨⟨2023, 6, 1⟩, 22, 16, 30⟩,
   ⟨⟨2010, 3, 3⟩, 100, 50, 200⟩]

/-- `exTable` with only the 2023 row changed: agrees with `exTable` on all
rows dated within 1991-01-01 .. 2020-12-31. -/
def exTableC : Table :=
  [⟨⟨1991, 1, 10⟩, 1, 0, 2⟩,
   ⟨⟨1992, 1, 10⟩, 2, 1, 3⟩,
   ⟨⟨1993, 1, 10⟩, 3, 2, 4⟩,
   ⟨⟨1994, 1, 10⟩, 4, 3, 5⟩,
   ⟨⟨1995, 1, 10⟩, 5, 4, 6⟩,
   ⟨⟨2002, 6, 15⟩, 20, 15, 25⟩,
   ⟨⟨2023, 6, 1⟩, 99, 55, 77⟩,
   ⟨⟨2010, 3, 3⟩, 7, 3, 12⟩]

/-- One row whose maximum temperature equals the 30 degree threshold
exactly. -/
def exTableHot : Table :=
  [⟨⟨2000, 7, 1⟩, 25, 18, 30⟩]

/-! ## Claim C1 -/

/-- C1: for every `(year, month)` key present in the baseline monthly
means, the anomaly is the monthly mean of that key minus the
climatological mean of that calendar month, in each temperature column:
`anom[(y,m)][c] = monthly_means[(y,m)][c] - clim[m][c]`. -/
theorem claim_C1_anom_eq_monthly_minus_clim (df : Table) (y m : Nat) (c : Col)
    (h : (y, m) ∈ monthlyKeys df) :
    ∃ a b, monthly_means df y m c = some a ∧ clim df m c = some b ∧
      anom df y m c = some (a - b) :=
  anom_eq_sub_of_key c h

/-- Witness for C1 at a concrete table and key. -/
theorem claim_C1_witness :
    (1991, 1) ∈ monthlyKeys exTable ∧
      ∃ a b, monthly_means exTable 1991 1 Col.tl_mittel = some a ∧
        clim exTable 1 Col.tl_mittel = some b ∧
        anom exTable 1991 1 Col.tl_mittel = some (a - b) :=
  ⟨by decide,
   claim_C1_anom_eq_monthly_minus_clim exTable 1991 1 Col.tl_mittel (by decide)⟩

/-! ## Claim C2 -/

/-- C2: for every calendar month `m` and column `c`, the climatology value
equals the arithmetic mean of that column over exactly the daily rows whose
date lies in the 30-year window 1991-01-01 .. 2020-12-31 and whose month is
`m` (both sides are `none` when there is no such row, so no row outside the
window ever contributes). -/
theorem claim_C2_clim_is_window_month_mean (df : Table) (m : Nat) (c : Col) :
    clim df m c = specClim df m c := by
  unfold clim specClim specClimRows
  rw [df_clim_eq]
  unfold df_date_restricted dateSlice
  rw [List.filter_filter]
  congr 1
  congr 1
  apply List.filter_congr
  intro x _
  simp [Bool.and_comm, Bool.and_left_comm, Bool.and_assoc]

/-! ## Claim C4 (corrected: the code counts values meeting or exceeding
the thresholds, `>=`, not strictly exceeding them) -/

/-- C4 counterexample: on a table with a single row whose `tlmax` is
exactly 30, the script counts one hot day, while the number of rows whose
`tlmax` strictly exceeds the 30 degree threshold is zero.  So the counts
are not the strict threshold-exceedance counts of the claim. -/
theorem claim_C4_counterexample :
    annual_stats exTableHot 2000 ACol.hot_days = 1 ∧
      strictExceedCount exTableHot 2000 Col.tlmax 30 = 0 := by
  constructor
  · decide
  · decide

/-- C4 (amended): for every calendar year appearing in the input (exactly
the index of `annual_stats`), the hot-day count is the number of daily rows
of that year whose `tlmax` is at least 30 and the tropical-night count is
the number of rows whose `tlmin` is at least 20; the two counts use the
two thresholds independently on their respective columns. -/
theorem claim_C4_amended_counts (df : Table) (y : Nat) :
    (y ∈ annualKeys df ↔ ∃ r ∈ df, r.date.year = y) ∧
    annual_stats df y ACol.hot_days
      = (df.filter
          (fun r => r.date.year == y && decide ((30 : ℚ) ≤ Row.get r Col.tlmax))).length ∧
    annual_stats df y ACol.tropical_nights
      = (df.filter
          (fun r => r.date.year == y && decide ((20 : ℚ) ≤ Row.get r Col.tlmin))).length := by
  refine ⟨mem_annualKeys, ?_, ?_⟩
  · have h0 : annual_stats df y ACol.hot_days
        = (df.filter (fun r => r.date.year == y)).countP
            (fun r => decide ((30 : ℚ) ≤ r.tlmax)) := rfl
    rw [h0, List.countP_eq_length_filter, List.filter_filter]
    congr 1
    apply List.filter_congr
    intro x _
    simp [Row.get, Bool.and_comm]
  · have h0 : annual_stats df y ACol.tropical_nights
        = (df.filter (fun r => r.date.year == y)).countP
            (fun r => decide ((20 : ℚ) ≤ r.tlmin)) := rfl
    rw [h0, List.countP_eq_length_filter, List.filter_filter]
    congr 1
    apply List.filter_congr
    intro x _
    simp [Row.get, Bool.and_comm]

/-! ## Claim C5 -/

/-- C5: for each month and column, the `monthly_stats` entries labelled
`median`, `p25`, `p75`, `p10`, `p90` hold respectively the median and the
25th, 75th, 10th and 90th linear-interpolation percentiles of the daily
values of that column falling in that month of the custom year set; in
particular the `median` column (computed by the middle-element rule) is
the 50th percentile of the same sample. -/
theorem claim_C5_monthly_stats_columns (df : Table) (m : Nat) (c : Col) :
    monthly_stats df m c Stat.median = quantile? (customVals df m c) (1/2) ∧
    monthly_stats df m c Stat.p25 = quantile? (customVals df m c) (1/4) ∧
    monthly_stats df m c Stat.p75 = quantile? (customVals df m c) (3/4) ∧
    monthly_stats df m c Stat.p10 = quantile? (customVals df m c) (1/10) ∧
    monthly_stats df m c Stat.p90 = quantile? (customVals df m c) (9/10) := by
  refine ⟨?_, rfl, rfl, rfl, rfl⟩
  show median? (customVals df m c) = quantile? (customVals df m c) (1/2)
  exact median?_eq_quantile_half _

/-! ## Claim C9 -/

/-- C9: all three phases are total.  Every aggregate the pipeline looks up
at one of its own group keys exists: the climatology at each of its month
keys, the monthly mean and the anomaly at each `(year, month)` key, the
yearly mean at each of its year keys, the per-year mean anomaly at each
year of the series, and every `monthly_stats` entry at each month key of
the custom year set.  (Aggregates over an empty selection simply have an
empty key set, never an error.) -/
theorem claim_C9_totality (df : Table) (y m : Nat) (c : Col) (st : Stat) :
    (m ∈ climKeys df → (clim df m c).isSome = true) ∧
    ((y, m) ∈ monthlyKeys df →
      (monthly_means df y m c).isSome = true ∧ (anom df y m c).isSome = true) ∧
    (y ∈ yearlyMeansKeys df → (yearly_means df y c).isSome = true) ∧
    (y ∈ seriesYearKeys df → (mean_anom_per_year df y).isSome = true) ∧
    (m ∈ customMonthKeys df → (monthly_stats df m c st).isSome = true) := by
  refine ⟨?_, ?_, ?_, ?_, ?_⟩
  · intro h
    obtain ⟨r, hr, hm⟩ := mem_climKeys.1 h
    obtain ⟨q, hq⟩ := clim_exists_of_mem hr hm c
    simp [hq]
  · intro h
    obtain ⟨a, b, ha, _, hab⟩ := anom_eq_sub_of_key c h
    exact ⟨by simp [ha], by simp [hab]⟩
  · intro h
    obtain ⟨r, hr, hy⟩ := mem_yearlyMeansKeys.1 h
    unfold yearly_means
    exact mean?_isSome (filter_map_ne_nil hr (by simp [hy]))
  · intro h
    obtain ⟨q, hq⟩ := mean_anom_per_year_exists h
    simp [hq]
  · intro h
    have hne := customVals_ne_nil c h
    cases st with
    | median =>
        obtain ⟨q, hq⟩ := median?_exists hne
        show (median? (customVals df m c)).isSome = true
        rw [hq]
        rfl
    | p25 =>
        obtain ⟨q, hq⟩ := quantile?_exists hne (1/4)
        show (quantile? (customVals df m c) (1/4)).isSome = true
        rw [hq]
        rfl
    | p75 =>
        obtain ⟨q, hq⟩ := quantile?_exists hne (3/4)
        show (quantile? (customVals df m c) (3/4)).isSome = true
        rw [hq]
        rfl
    | p10 =>
        obtain ⟨q, hq⟩ := quantile?_exists hne (1/10)
        show (quantile? (customVals df m c) (1/10)).isSome = true
        rw [hq]
        rfl
    | p90 =>
        obtain ⟨q, hq⟩ := quantile?_exists hne (9/10)
        show (quantile? (customVals df m c) (9/10)).isSome = true
        rw [hq]
        rfl

/-- Witness for C9: each hypothesis discharged at a concrete table and
concrete keys. -/
theorem claim_C9_witness :
    (clim exTable 1 Col.tl_mittel).isSome = true ∧
    (monthly_means exTable 1991 1 Col.tl_mittel).isSome = true ∧
    (anom exTable 1991 1 Col.tl_mittel).isSome = true ∧
    (yearly_means exTable 1991 Col.tl_mittel).isSome = true ∧
    (mean_anom_per_year exTable 1991).isSome = true ∧
    (monthly_stats exTable 6 Col.tl_mittel Stat.p90).isSome = true :=
  ⟨(claim_C9_totality exTable 1991 1 Col.tl_mittel Stat.p90).1 (by decide),
   ((claim_C9_totality exTable 1991 1 Col.tl_mittel Stat.p90).2.1 (by decide)).1,
   ((claim_C9_totality exTable 1991 1 Col.tl_mittel Stat.p90).2.1 (by decide)).2,
   (claim_C9_totality exTable 1991 1 Col.tl_mittel Stat.p90).2.2.1 (by decide),
   (claim_C9_totality exTable 1991 1 Col.tl_mittel Stat.p90).2.2.2.1 (by decide),
   (claim_C9_totality exTable 1991 6 Col.tl_mittel Stat.p90).2.2.2.2 (by decide)⟩

/-! ## Claim C3 -/

/-- C3: under the hypothesis that the baseline series has at least five
years, `hottest_years` consists of exactly five distinct years of the
series index, and every year of the series left out has a mean `tl_mittel`
anomaly no larger than that of any selected year: the five selected years
are maximizers of `mean_anom_per_year`. -/
theorem claim_C3_hottest_years (df : Table)
    (h5 : 5 ≤ (seriesYearKeys df).length) :
    (hottest_years df).length = 5 ∧
    (hottest_years df).Nodup ∧
    (∀ y ∈ hottest_years df, y ∈ seriesYearKeys df) ∧
    (∀ y ∈ hottest_years df, ∀ y' ∈ seriesYearKeys df,
      y' ∉ hottest_years df →
        ∀ a b, mean_anom_per_year df y = some a →
          mean_anom_per_year df y' = some b → b ≤ a) := by
  have hlen : (hottestPairs df).length = (seriesYearKeys df).length := by
    rw [(hottestPairs_perm df).length_eq, anomPairs_length]
  refine ⟨?_, ?_, fun y hy => hottest_years_subset hy, ?_⟩
  · unfold hottest_years
    rw [List.length_map, List.length_take, hlen]
    omega
  · unfold hottest_years
    apply List.Sublist.nodup (List.Sublist.map Prod.fst (List.take_sublist 5 _))
    have hperm : ((hottestPairs df).map Prod.fst).Perm
        ((anomPairs df).map Prod.fst) := (hottestPairs_perm df).map Prod.fst
    exact hperm.nodup_iff.2 (fst_anomPairs_nodup df)
  · intro y hy y' hk' hnot a b ha hb
    obtain ⟨pr, hpr, _, hprv⟩ := hottest_mean_eq hy
    have hpa : pr.2 = a := by
      rw [hprv] at ha
      exact Option.some_inj.1 ha
    have hmem' : (y', b) ∈ anomPairs df := mem_anomPairs.2 ⟨hk', hb⟩
    have hmem'' : (y', b) ∈ hottestPairs df :=
      (hottestPairs_perm df).mem_iff.2 hmem'
    have hsplit : (y', b) ∈ (hottestPairs df).take 5 ∨
        (y', b) ∈ (hottestPairs df).drop 5 := by
      rw [← List.mem_append, List.take_append_drop]
      exact hmem''
    rcases hsplit with hcase | hcase
    · exact absurd (mem_hottest_years.2 ⟨(y', b), hcase, rfl⟩) hnot
    · have hle := hottestPairs_take_drop df hpr hcase
      rw [hpa] at hle
      exact hle

/-- Witness for C3 at a concrete table with seven baseline years. -/
theorem claim_C3_witness :
    5 ≤ (seriesYearKeys exTable).length ∧
    ((hottest_years exTable).length = 5 ∧
    (hottest_years exTable).Nodup ∧
    (∀ y ∈ hottest_years exTable, y ∈ seriesYearKeys exTable) ∧
    (∀ y ∈ hottest_years exTable, ∀ y' ∈ seriesYearKeys exTable,
      y' ∉ hottest_years exTable →
        ∀ a b, mean_anom_per_year exTable y = some a →
          mean_anom_per_year exTable y' = some b → b ≤ a)) :=
  ⟨by decide, claim_C3_hottest_years exTable (by decide)⟩

/-! ## Claim C6 -/

/-- C6: `monthly_stats` depends only on the rows of 2002 and the rows
dated 2023-01-01 or later.  Two inputs that agree on those two date ranges
produce the same month index and the same statistics everywhere; rows
dated before 2002 or in 2003 .. 2022 have no effect. -/
theorem claim_C6_custom_years_dependence (t1 t2 : Table)
    (h02 : dateSlice ⟨2002, 1, 1⟩ ⟨2002, 12, 31⟩ t1
      = dateSlice ⟨2002, 1, 1⟩ ⟨2002, 12, 31⟩ t2)
    (h23 : dateFrom ⟨2023, 1, 1⟩ t1 = dateFrom ⟨2023, 1, 1⟩ t2) :
    customMonthKeys t1 = customMonthKeys t2 ∧
      ∀ m c st, monthly_stats t1 m c st = monthly_stats t2 m c st := by
  have key : df_custom_years t1 = df_custom_years t2 := by
    unfold df_custom_years
    rw [h02, h23]
  constructor
  · unfold customMonthKeys
    rw [key]
  · intro m c st
    unfold monthly_stats monthlyStatsAgg customVals
    rw [key]

/-- Witness for C6: two concrete tables that differ only in their 2010
row. -/
theorem claim_C6_witness :
    (dateSlice ⟨2002, 1, 1⟩ ⟨2002, 12, 31⟩ exTable
      = dateSlice ⟨2002, 1, 1⟩ ⟨2002, 12, 31⟩ exTableB) ∧
    (dateFrom ⟨2023, 1, 1⟩ exTable = dateFrom ⟨2023, 1, 1⟩ exTableB) ∧
    (customMonthKeys exTable = customMonthKeys exTableB ∧
      ∀ m c st, monthly_stats exTable m c st = monthly_stats exTableB m c st) :=
  ⟨rfl, rfl, claim_C6_custom_years_dependence exTable exTableB rfl rfl⟩

/-! ## Claim C7 -/

theorem leb_year_le {a b : Date} (h : Date.leb a b = true) :
    a.year ≤ b.year := by
  unfold Date.leb at h
  simp only [Bool.or_eq_true, Bool.and_eq_true, decide_eq_true_eq] at h
  omega

/-- C7: the climatology, the monthly means, the anomalies and the five
hottest years depend only on the rows dated within 1991-01-01 ..
2020-12-31: two inputs that agree on that window produce identical
results; and every selected hottest year lies between 1991 and 2020. -/
theorem claim_C7_window_dependence (t1 t2 : Table)
    (h : df_date_restricted t1 = df_date_restricted t2) :
    (∀ m c, clim t1 m c = clim t2 m c) ∧
    (∀ y m c, monthly_means t1 y m c = monthly_means t2 y m c) ∧
    (∀ y m c, anom t1 y m c = anom t2 y m c) ∧
    hottest_years t1 = hottest_years t2 ∧
    (∀ y ∈ hottest_years t1, 1991 ≤ y ∧ y ≤ 2020) := by
  have hclim : ∀ m c, clim t1 m c = clim t2 m c := by
    intro m c
    unfold clim df_clim
    rw [h]
  have hmm : ∀ y m c, monthly_means t1 y m c = monthly_means t2 y m c := by
    intro y m c
    unfold monthly_means
    rw [h]
  have hanom : ∀ y m c, anom t1 y m c = anom t2 y m c := by
    intro y m c
    unfold anom
    rw [hmm, hclim]
  have hkeys : monthlyKeys t1 = monthlyKeys t2 := by
    unfold monthlyKeys
    rw [h]
  have hyk : seriesYearKeys t1 = seriesYearKeys t2 := by
    unfold seriesYearKeys
    rw [hkeys]
  have hmean : ∀ y, mean_anom_per_year t1 y = mean_anom_per_year t2 y := by
    intro y
    unfold mean_anom_per_year
    rw [hkeys]
    have hfe : (fun km : Nat × Nat => anom t1 km.1 km.2 Col.tl_mittel)
        = (fun km : Nat × Nat => anom t2 km.1 km.2 Col.tl_mittel) :=
      funext (fun km => hanom km.1 km.2 Col.tl_mittel)
    rw [hfe]
  have hhot : hottest_years t1 = hottest_years t2 := by
    unfold hottest_years hottestPairs anomPairs
    rw [hyk]
    have hfe : (fun y => (mean_anom_per_year t1 y).map (fun v => (y, v)))
        = (fun y => (mean_anom_per_year t2 y).map (fun v => (y, v))) :=
      funext (fun y => by rw [hmean])
    rw [hfe]
  refine ⟨hclim, hmm, hanom, hhot, ?_⟩
  intro y hy
  have hk := hottest_years_subset hy
  obtain ⟨m', hkm⟩ := mem_seriesYearKeys.1 hk
  obtain ⟨r, hr, hry, _⟩ := mem_monthlyKeys.1 hkm
  unfold df_date_restricted dateSlice at hr
  rw [List.mem_filter, Bool.and_eq_true] at hr
  obtain ⟨_, hlo, hhi⟩ := hr
  exact ⟨by rw [← hry]; exact leb_year_le hlo, by rw [← hry]; exact leb_year_le hhi⟩

/-- Witness for C7: two concrete tables that differ only in their 2023
row, which is outside the baseline window. -/
theorem claim_C7_witness :
    (df_date_restricted exTable = df_date_restricted exTableC) ∧
    ((∀ m c, clim exTable m c = clim exTableC m c) ∧
    (∀ y m c, monthly_means exTable y m c = monthly_means exTableC y m c) ∧
    (∀ y m c, anom exTable y m c = anom exTableC y m c) ∧
    hottest_years exTable = hottest_years exTableC ∧
    (∀ y ∈ hottest_years exTable, 1991 ≤ y ∧ y ≤ 2020)) :=
  ⟨rfl, claim_C7_window_dependence exTable exTableC rfl⟩

/-! ## Claim C8 -/

theorem mem_of_restricted {df : Table} {r : Row}
    (h : r ∈ df_date_restricted df) : r ∈ df := by
  unfold df_date_restricted dateSlice at h
  exact (List.mem_filter.1 h).1

theorem mem_of_df_clim {df : Table} {r : Row} (h : r ∈ df_clim df) : r ∈ df := by
  rw [df_clim_eq] at h
  exact mem_of_restricted h

theorem mem_of_custom_years {df : Table} {r : Row}
    (h : r ∈ df_custom_years df) : r ∈ df := by
  unfold df_custom_years dateSlice dateFrom at h
  rcases List.mem_append.1 h with h1 | h1
  · exact (List.mem_filter.1 h1).1
  · exact (List.mem_filter.1 h1).1

/-- C8: when every input date is a valid calendar date, every group key
the pipeline produces is a valid calendar month or year: the month keys of
the climatology and of `monthly_stats` lie in 1 .. 12, and the year keys
of `yearly_means` and of `annual_stats` are years of input rows. -/
theorem claim_C8_group_keys_valid (df : Table)
    (hv : ∀ r ∈ df, ValidDate r.date) :
    (∀ m ∈ climKeys df, 1 ≤ m ∧ m ≤ 12) ∧
    (∀ m ∈ customMonthKeys df, 1 ≤ m ∧ m ≤ 12) ∧
    (∀ y ∈ yearlyMeansKeys df, ∃ r ∈ df, r.date.year = y) ∧
    (∀ y ∈ annualKeys df, ∃ r ∈ df, r.date.year = y) := by
  refine ⟨?_, ?_, ?_, ?_⟩
  · intro m hm
    obtain ⟨r, hr, hmm⟩ := mem_climKeys.1 hm
    have hvr := hv r (mem_of_df_clim hr)
    rw [← hmm]
    exact ⟨hvr.1, hvr.2.1⟩
  · intro m hm
    obtain ⟨r, hr, hmm⟩ := mem_customMonthKeys.1 hm
    have hvr := hv r (mem_of_custom_years hr)
    rw [← hmm]
    exact ⟨hvr.1, hvr.2.1⟩
  · intro y hy
    obtain ⟨r, hr, hyy⟩ := mem_yearlyMeansKeys.1 hy
    exact ⟨r, mem_of_restricted hr, hyy⟩
  · intro y hy
    exact mem_annualKeys.1 hy

/-- Witness for C8 at a concrete valid table. -/
theorem claim_C8_witness :
    (∀ r ∈ exTable, ValidDate r.date) ∧
    ((∀ m ∈ climKeys exTable, 1 ≤ m ∧ m ≤ 12) ∧
    (∀ m ∈ customMonthKeys exTable, 1 ≤ m ∧ m ≤ 12) ∧
    (∀ y ∈ yearlyMeansKeys exTable, ∃ r ∈ exTable, r.date.year = y) ∧
    (∀ y ∈ annualKeys exTable, ∃ r ∈ exTable, r.date.year = y)) :=
  ⟨by decide, claim_C8_group_keys_valid exTable (by decide)⟩

/-! ## Claim C10 -/

/-- C10: for every month with at least one custom-year row and every
column, the computed order statistics are ordered:
`p10 <= p25 <= median <= p75 <= p90`. -/
theorem claim_C10_quantiles_ordered (df : Table) (m : Nat) (c : Col)
    (h : m ∈ customMonthKeys df) :
    ∃ q10 q25 q50 q75 q90,
      monthly_stats df m c Stat.p10 = some q10 ∧
      monthly_stats df m c Stat.p25 = some q25 ∧
      monthly_stats df m c Stat.median = some q50 ∧
      monthly_stats df m c Stat.p75 = some q75 ∧
      monthly_stats df m c Stat.p90 = some q90 ∧
      q10 ≤ q25 ∧ q25 ≤ q50 ∧ q50 ≤ q75 ∧ q75 ≤ q90 := by
  have hne := customVals_ne_nil c h
  have hsne := sortQ_ne_nil hne
  have hss := sortQ_sorted (customVals df m c)
  refine ⟨interpQ (sortQ (customVals df m c)) (1/10),
    interpQ (sortQ (customVals df m c)) (1/4),
    interpQ (sortQ (customVals df m c)) (1/2),
    interpQ (sortQ (customVals df m c)) (3/4),
    interpQ (sortQ (customVals df m c)) (9/10), ?_, ?_, ?_, ?_, ?_, ?_, ?_, ?_, ?_⟩
  · show quantile? (customVals df m c) (1/10) = _
    simp [quantile?, hne]
  · show quantile? (customVals df m c) (1/4) = _
    simp [quantile?, hne]
  · show median? (customVals df m c) = _
    rw [median?_eq_quantile_half]
    simp [quantile?, hne]
  · show quantile? (customVals df m c) (3/4) = _
    simp [quantile?, hne]
  · show quantile? (customVals df m c) (9/10) = _
    simp [quantile?, hne]
  · exact interpQ_mono hss hsne (by norm_num) (by norm_num) (by norm_num)
  · exact interpQ_mono hss hsne (by norm_num) (by norm_num) (by norm_num)
  · exact interpQ_mono hss hsne (by norm_num) (by norm_num) (by norm_num)
  · exact interpQ_mono hss hsne (by norm_num) (by norm_num) (by norm_num)

/-- Witness for C10 at a concrete table and month. -/
theorem claim_C10_witness :
    6 ∈ customMonthKeys exTable ∧
    (∃ q10 q25 q50 q75 q90,
      monthly_stats exTable 6 Col.tl_mittel Stat.p10 = some q10 ∧
      monthly_stats exTable 6 Col.tl_mittel Stat.p25 = some q25 ∧
      monthly_stats exTable 6 Col.tl_mittel Stat.median = some q50 ∧
      monthly_stats exTable 6 Col.tl_mittel Stat.p75 = some q75 ∧
      monthly_stats exTable 6 Col.tl_mittel Stat.p90 = some q90 ∧
      q10 ≤ q25 ∧ q25 ≤ q50 ∧ q50 ≤ q75 ∧ q75 ≤ q90) :=
  ⟨by decide, claim_C10_quantiles_ordered exTable 6 Col.tl_mittel (by decide)⟩

end ClimateGraz
